import Mathlib

/-!
Verification of the `Sandbox` facade from
`src/venv/Lib/site-packages/e2b/sandbox/main.py`.

Python strings are embedded as `List Char` (a Python `str` is a sequence of
code points); `None`-able values as `Option`; callbacks as booleans recording
whether a handler was registered; HTTP responses as a record of status code,
reason phrase and body; raised exceptions as `Except` errors; side effects of
the lifecycle methods as explicit effect traces.
-/

set_option autoImplicit false

namespace E2B

/-- Python `s.split(sep)` for a single-character separator: splits at every
occurrence of `sep`; `"".split(sep) == [""]`, and an occurrence at either end
produces an empty part. -/
def pySplit (sep : Char) : List Char → List (List Char)
  | [] => [[]]
  | c :: cs =>
      if c = sep then [] :: pySplit sep cs
      else
        match pySplit sep cs with
        | [] => [[c]]
        | r :: rs => (c :: r) :: rs

theorem pySplit_ne_nil (sep : Char) (l : List Char) : pySplit sep l ≠ [] := by
  induction l with
  | nil => simp [pySplit]
  | cons c cs ih =>
      simp only [pySplit]
      split
      · simp
      · match h : pySplit sep cs with
        | [] => exact absurd h ih
        | r :: rs => simp

theorem pySplit_no_sep (sep : Char) (l : List Char) (h : sep ∉ l) :
    pySplit sep l = [l] := by
  induction l with
  | nil => rfl
  | cons c cs ih =>
      simp only [List.mem_cons, not_or] at h
      have hc : ¬c = sep := fun hh => h.1 hh.symm
      simp only [pySplit, if_neg hc, ih h.2]

theorem pySplit_append_sep (sep : Char) (a b : List Char) (h : sep ∉ a) :
    pySplit sep (a ++ sep :: b) = a :: pySplit sep b := by
  induction a with
  | nil => simp [pySplit]
  | cons c cs ih =>
      simp only [List.mem_cons, not_or] at h
      have hc : ¬c = sep := fun hh => h.1 hh.symm
      simp only [List.cons_append, pySplit, if_neg hc]
      have ih' : pySplit sep (List.append cs (sep :: b)) = cs :: pySplit sep b :=
        ih h.2
      rw [ih']

/-- Structure lemma for `pySplit`: the head part of the split is a
separator-free prefix, and the remaining parts split the remaining suffix. -/
theorem pySplit_head (sep : Char) (t a : List Char) (rs : List (List Char))
    (h : pySplit sep t = a :: rs) :
    sep ∉ a ∧ ((rs = [] ∧ t = a) ∨
      ∃ t', t = a ++ sep :: t' ∧ pySplit sep t' = rs) := by
  induction t generalizing a rs with
  | nil =>
      simp only [pySplit, List.cons.injEq] at h
      obtain ⟨rfl, rfl⟩ := h
      exact ⟨by simp, Or.inl ⟨rfl, rfl⟩⟩
  | cons c cs ih =>
      simp only [pySplit] at h
      by_cases hc : c = sep
      · rw [if_pos hc] at h
        injection h with ha hrs
        subst ha; subst hrs
        exact ⟨by simp, Or.inr ⟨cs, by simp [hc], rfl⟩⟩
      · rw [if_neg hc] at h
        match hcs : pySplit sep cs with
        | [] => exact absurd hcs (pySplit_ne_nil sep cs)
        | r :: rs' =>
            rw [hcs] at h
            injection h with ha hrs
            subst ha; subst hrs
            obtain ⟨hr, hrest⟩ := ih r rs' hcs
            refine ⟨?_, ?_⟩
            · simp only [List.mem_cons, not_or]
              exact ⟨fun hh => hc hh.symm, hr⟩
            · rcases hrest with ⟨rfl, rfl⟩ | ⟨t', rfl, ht'⟩
              · exact Or.inl ⟨rfl, rfl⟩
              · exact Or.inr ⟨t', by simp, ht'⟩

/-- Errors raised by the facade, as they appear in `main.py`. -/
inductive SdkError where
  /-- Python `ValueError` from tuple-unpacking `sandbox_id.split("-")` into
  two variables when the split does not have exactly two parts. -/
  | valueError
  /-- The `Exception` raised by `upload_file` / `download_file` on a non-200
  status, carrying the formatted message. -/
  | transfer (msg : List Char)
  deriving DecidableEq

/-- Python tuple unpacking `x, y = l` of a list into exactly two variables:
raises `ValueError` unless the list has exactly two elements. -/
def unpackPair : List (List Char) → Except SdkError (List Char × List Char)
  | [a, b] => .ok (a, b)
  | _ => .error .valueError

/-- `Sandbox.reconnect` (main.py:198): `sandbox_id, client_id =
sandbox_id.split("-")`.  Returns the `(sandbox_id, client_id)` pair placed in
the session, or the `ValueError` from unpacking. -/
def reconnect_parse (token : List Char) : Except SdkError (List Char × List Char) :=
  unpackPair (pySplit '-' token)

/-- C1 counterexample: the token `"-x"` does not split into two non-empty
hyphen-separated parts (its first part is empty), so the claim requires
`reconnect` to fail on it; the code instead succeeds and builds a session
with an empty `sandboxId`. -/
theorem C1_counterexample :
    reconnect_parse "-x".data = .ok ([], "x".data) := by
  rfl

/-- C1 (amended): `reconnect` parses the token successfully exactly when the
token contains exactly one hyphen, i.e. it is `A-B` with `A` and `B`
hyphen-free but possibly empty; the session then has `sandboxId = A` and
`clientId = B`.  Any other token (no hyphen, or two or more hyphens) makes
`reconnect` fail — with the `ValueError` of tuple unpacking, there is no
dedicated MalformedToken/ConfigError in the code. -/
theorem C1_reconnect_token (t a b : List Char) :
    reconnect_parse t = .ok (a, b) ↔
      t = a ++ '-' :: b ∧ '-' ∉ a ∧ '-' ∉ b := by
  constructor
  · intro h
    have h' : unpackPair (pySplit '-' t) = .ok (a, b) := h
    have hsp : pySplit '-' t = [a, b] := by
      rcases hl : pySplit '-' t with _ | ⟨x, _ | ⟨y, _ | _⟩⟩
      · rw [hl] at h'; exact absurd h' (by simp [unpackPair])
      · rw [hl] at h'; exact absurd h' (by simp [unpackPair])
      · rw [hl] at h'
        have hxy : x = a ∧ y = b := by
          simp only [unpackPair, Except.ok.injEq, Prod.mk.injEq] at h'
          exact h'
        rw [hxy.1, hxy.2]
      · rw [hl] at h'; exact absurd h' (by simp [unpackPair])
    obtain ⟨ha, hrest⟩ := pySplit_head '-' t a [b] hsp
    rcases hrest with ⟨hbad, _⟩ | ⟨t', rfl, ht'⟩
    · exact absurd hbad (by simp)
    · obtain ⟨hb, hrest'⟩ := pySplit_head '-' t' b [] ht'
      rcases hrest' with ⟨_, rfl⟩ | ⟨t'', _, ht''⟩
      · exact ⟨rfl, ha, hb⟩
      · exact absurd ht'' (pySplit_ne_nil '-' t'')
  · rintro ⟨rfl, ha, hb⟩
    simp only [reconnect_parse, pySplit_append_sep '-' a b ha,
      pySplit_no_sep '-' b hb, unpackPair]

/-- C1 witness: the amended theorem applied to the concrete token
`"abc-def"`. -/
theorem C1_reconnect_token_witness :
    reconnect_parse "abc-def".data = .ok ("abc".data, "def".data) :=
  (C1_reconnect_token "abc-def".data "abc".data "def".data).mpr
    ⟨by decide, by decide, by decide⟩

/-- Python `s.replace(old, new)` for the single-character `old` used at
main.py:106: replaces every occurrence, not only a leading one. -/
def pyReplaceChar (t : Char) (repl : List Char) : List Char → List Char
  | [] => []
  | c :: cs => (if c = t then repl else [c]) ++ pyReplaceChar t repl cs

/-- main.py:105-106: `if cwd and cwd.startswith("~"): cwd =
cwd.replace("~", "/home/user")`.  A `None` cwd stays `None`; an empty cwd is
falsy and also left alone. -/
def normalize_cwd : Option (List Char) → Option (List Char)
  | none => none
  | some s =>
      if s.head? = some '~' then some (pyReplaceChar '~' "/home/user".data s)
      else some s

/-- C2: at the working directory `"~/a~b"` the code rewrites BOTH tildes
(`str.replace` replaces every occurrence), producing
`"/home/user/a/home/userb"`, while the claim demands that only the leading
tilde be rewritten, i.e. `"/home/user/a~b"`. -/
theorem C2_cwd_tilde_bug :
    normalize_cwd (some "~/a~b".data) = some "/home/user/a/home/userb".data ∧
      "/home/user/a/home/userb".data ≠ "/home/user/a~b".data := by
  exact ⟨rfl, by decide⟩

/-- The facade state after constructor normalization: the fields of `Sandbox`
and of its `SandboxConnection` base that the verified operations read.
Callback parameters are recorded as booleans saying whether a handler was
registered (`on_exit` never influences control flow in main.py and is
omitted). -/
structure Sandbox where
  template : List Char
  cwd : Option (List Char)
  env_vars : List (List Char × List Char)
  sandbox_id : List Char
  client_id : List Char
  domain : List Char
  debug_hostname : Option (List Char)
  debug_port : Option Nat
  debug_dev_env : Option (List Char)
  on_scan_ports : Bool
  on_stdout : Bool
  on_stderr : Bool

/-- The facade-level side effects of `Sandbox._open` and `Sandbox.__exit__`,
recorded as an explicit trace. -/
inductive Effect where
  | subscribePortScan
  | makeDir (dir : List Char)
  | startLogsTask
  | close
  deriving DecidableEq, BEq

/-- Modelled from the spec: `CodeSnippetManager._subscribe`
(e2b/sandbox/code_snippet.py is not under src/).  Per the spec, `_open`
subscribes to port-scan notifications if a callback was registered. -/
def codeSnippet_subscribe (on_scan_ports : Bool) : List Effect :=
  if on_scan_ports then [.subscribePortScan] else []

/-- `Sandbox._open` (main.py:216-235): the facade-level effects performed
after the transport-level `super()._open` succeeded —
`self._code_snippet._subscribe()` (unconditionally invoked), then
`self.filesystem.make_dir(self.cwd)` under `if self.cwd:` (a Python
truthiness test: both `None` and the empty string are falsy), then
`self._handle_start_cmd_logs()` when a stdout or stderr callback is
registered. -/
def open_effects (s : Sandbox) : List Effect :=
  codeSnippet_subscribe s.on_scan_ports ++
    (match s.cwd with
      | some d => if d = [] then [] else [.makeDir d]
      | none => []) ++
    (if s.on_stderr || s.on_stdout then [.startLogsTask] else [])

/-- Position of each effect kind in the order claimed for `_open`. -/
def effectStage : Effect → Nat
  | .subscribePortScan => 0
  | .makeDir _ => 1
  | .startLogsTask => 2
  | .close => 3

theorem makeDir_mem_open_effects (s : Sandbox) (d : List Char) :
    Effect.makeDir d ∈ open_effects s ↔ (s.cwd = some d ∧ d ≠ []) := by
  have h1 : Effect.makeDir d ∉ codeSnippet_subscribe s.on_scan_ports := by
    cases hb : s.on_scan_ports <;> simp [codeSnippet_subscribe]
  have h2 : Effect.makeDir d ∉
      (if s.on_stderr || s.on_stdout then [Effect.startLogsTask] else []) := by
    cases hb : (s.on_stderr || s.on_stdout) <;> simp
  simp only [open_effects, List.mem_append, h1, h2, false_or, or_false]
  rcases hc : s.cwd with _ | d₀
  · simp
  · show Effect.makeDir d ∈
        (if d₀ = [] then ([] : List Effect) else [Effect.makeDir d₀]) ↔
      (some d₀ = some d ∧ d ≠ [])
    by_cases hd : d₀ = []
    · subst hd
      rw [if_pos rfl]
      constructor
      · intro h
        exact absurd h (List.not_mem_nil _)
      · rintro ⟨hsome, hne⟩
        injection hsome with h'
        exact absurd h'.symm hne
    · rw [if_neg hd]
      constructor
      · intro h
        have h' : d = d₀ := by simpa using h
        subst h'
        exact ⟨rfl, hd⟩
      · rintro ⟨hsome, hne⟩
        injection hsome with h'
        subst h'
        simp

/-- C3 counterexample: with the working directory configured as the empty
string, `_open` performs no effect at all — in particular it does not
create the configured directory — because `if self.cwd:` (main.py:231) is a
Python truthiness test and the empty string is falsy; the claim requires
the configured working directory to be created whenever one is
configured. -/
theorem C3_counterexample :
    open_effects
        { template := "base".data, cwd := some "".data, env_vars := [],
          sandbox_id := "s".data, client_id := "c".data,
          domain := "e2b.dev".data, debug_hostname := none,
          debug_port := none, debug_dev_env := none,
          on_scan_ports := false, on_stdout := false, on_stderr := false } =
      [] ∧
    Effect.makeDir "".data ∉ open_effects
        { template := "base".data, cwd := some "".data, env_vars := [],
          sandbox_id := "s".data, client_id := "c".data,
          domain := "e2b.dev".data, debug_hostname := none,
          debug_port := none, debug_dev_env := none,
          on_scan_ports := false, on_stdout := false, on_stderr := false } := by
  exact ⟨rfl, by simp [open_effects, codeSnippet_subscribe]⟩

/-- C3 (amended): after the transport-level open, `_open` subscribes to
port scans iff a port-scan callback is registered, creates the configured
working directory iff one is configured as a NON-EMPTY string (the
`if self.cwd:` guard is a Python truthiness test, under which the empty
string counts as not configured), starts the startup-command
log-forwarding task iff a stdout or stderr callback is registered, and
performs these effects in this order. -/
theorem C3_open_effects (s : Sandbox) :
    (Effect.subscribePortScan ∈ open_effects s ↔ s.on_scan_ports = true) ∧
    (∀ d, Effect.makeDir d ∈ open_effects s ↔ (s.cwd = some d ∧ d ≠ [])) ∧
    (Effect.startLogsTask ∈ open_effects s ↔
      (s.on_stdout = true ∨ s.on_stderr = true)) ∧
    (open_effects s).Pairwise (fun e f => effectStage e < effectStage f) := by
  refine ⟨?_, fun d => makeDir_mem_open_effects s d, ?_, ?_⟩
  · obtain ⟨tmpl, cwd, env, sid, cid, dom, dh, dp, dde, osp, sout, serr⟩ := s
    rcases cwd with _ | d₀
    · cases osp <;> cases sout <;> cases serr <;>
        simp [open_effects, codeSnippet_subscribe]
    · by_cases hd : d₀ = [] <;> cases osp <;> cases sout <;> cases serr <;>
        simp [open_effects, codeSnippet_subscribe, hd]
  · obtain ⟨tmpl, cwd, env, sid, cid, dom, dh, dp, dde, osp, sout, serr⟩ := s
    rcases cwd with _ | d₀
    · cases osp <;> cases sout <;> cases serr <;>
        simp [open_effects, codeSnippet_subscribe]
    · by_cases hd : d₀ = [] <;> cases osp <;> cases sout <;> cases serr <;>
        simp [open_effects, codeSnippet_subscribe, hd]
  · obtain ⟨tmpl, cwd, env, sid, cid, dom, dh, dp, dde, osp, sout, serr⟩ := s
    rcases cwd with _ | d₀
    · cases osp <;> cases sout <;> cases serr <;>
        simp [open_effects, codeSnippet_subscribe, effectStage]
    · by_cases hd : d₀ = [] <;> cases osp <;> cases sout <;> cases serr <;>
        simp [open_effects, codeSnippet_subscribe, effectStage, hd]

/-- C3 witness: the theorem instantiated at a fully concrete facade state. -/
theorem C3_open_effects_witness :
    Effect.startLogsTask ∈ open_effects
      { template := "base".data, cwd := some "/code".data, env_vars := [],
        sandbox_id := "s".data, client_id := "c".data,
        domain := "e2b.dev".data, debug_hostname := none, debug_port := none,
        debug_dev_env := none, on_scan_ports := true, on_stdout := true,
        on_stderr := false } :=
  ((C3_open_effects _).2.2.1).mpr (Or.inl rfl)

/-- An HTTP response as consumed by `upload_file` / `download_file`: status
code, reason phrase, decoded text body, and raw payload bytes. -/
structure Response where
  status_code : Nat
  reason : List Char
  text : List Char
  content : List Nat

/-- `Sandbox.download_file` (main.py:268-285) applied to the response `r` of
its GET request: a non-200 status raises
`Exception(f"Failed to download file '{remote_path}'. {r.reason} {r.text}")`,
a 200 status returns `r.content`. -/
def download_file (remote_path : List Char) (r : Response) :
    Except SdkError (List Nat) :=
  if r.status_code ≠ 200 then
    .error (.transfer ("Failed to download file '".data ++ remote_path ++
      "'. ".data ++ r.reason ++ " ".data ++ r.text))
  else .ok r.content

/-- C4: on a non-200 response `download_file` fails with a transfer error
whose message contains the remote path, the reason phrase and the body text
(exhibited by an explicit decomposition of the message); on a 200 response
it returns the raw payload bytes unmodified. -/
theorem C4_download_file (p : List Char) (r : Response) :
    (r.status_code ≠ 200 →
      ∃ u v w, download_file p r =
        .error (.transfer (u ++ p ++ v ++ r.reason ++ w ++ r.text))) ∧
    (r.status_code = 200 → download_file p r = .ok r.content) := by
  constructor
  · intro h
    refine ⟨"Failed to download file '".data, "'. ".data, " ".data, ?_⟩
    simp [download_file, h, List.append_assoc]
  · intro h
    simp [download_file, h]

/-- C4 witness: the theorem applied to `remotePath = "/tmp/x"` with a 404
`"Not Found"` / `"no such file"` response and to a 200 response. -/
theorem C4_download_file_witness :
    (∃ u v w,
      download_file "/tmp/x".data
          { status_code := 404, reason := "Not Found".data,
            text := "no such file".data, content := [] } =
        .error (.transfer (u ++ "/tmp/x".data ++ v ++ "Not Found".data ++
          w ++ "no such file".data))) ∧
    download_file "/tmp/x".data
        { status_code := 200, reason := "OK".data, text := [],
          content := [1, 2, 3] } =
      .ok [1, 2, 3] :=
  ⟨(C4_download_file "/tmp/x".data
      { status_code := 404, reason := "Not Found".data,
        text := "no such file".data, content := [] }).1 (by decide),
   (C4_download_file "/tmp/x".data
      { status_code := 200, reason := "OK".data, text := [],
        content := [1, 2, 3] }).2 rfl⟩

/-- `posixpath.basename`: the part of the name after the last slash. -/
def basename (s : List Char) : List Char :=
  (pySplit '/' s).getLastD []

/-- `Sandbox.upload_file` (main.py:251-266) applied to the response `r` of
its multipart POST: a non-200 status raises
`Exception(f"Failed to upload file: {r.reason} {r.text}")`, a 200 status
returns `f"/home/user/{path.basename(file.name)}"`. -/
def upload_file (name : List Char) (r : Response) :
    Except SdkError (List Char) :=
  if r.status_code ≠ 200 then
    .error (.transfer ("Failed to upload file: ".data ++ r.reason ++
      " ".data ++ r.text))
  else .ok ("/home/user/".data ++ basename name)

/-- C5: on a 200 response `upload_file` returns exactly
`"/home/user/" ++ basename name` — for a file named `"report.csv"` that is
`"/home/user/report.csv"` — and on a non-200 response it fails with a
transfer error whose message contains the reason phrase and the body. -/
theorem C5_upload_file (name : List Char) (r : Response) :
    (r.status_code = 200 →
      upload_file name r = .ok ("/home/user/".data ++ basename name)) ∧
    (r.status_code ≠ 200 →
      ∃ u v, upload_file name r =
        .error (.transfer (u ++ r.reason ++ v ++ r.text))) ∧
    basename "report.csv".data = "report.csv".data := by
  refine ⟨fun h => by simp [upload_file, h], fun h => ?_, by decide⟩
  exact ⟨"Failed to upload file: ".data, " ".data, by
    simp [upload_file, h, List.append_assoc]⟩

/-- C5 witness: the theorem applied to the file name `"report.csv"` with a
200 response and with a 500 response. -/
theorem C5_upload_file_witness :
    upload_file "report.csv".data
        { status_code := 200, reason := "OK".data, text := [], content := [] } =
      .ok "/home/user/report.csv".data ∧
    (∃ u v,
      upload_file "report.csv".data
          { status_code := 500, reason := "Server Error".data,
            text := "boom".data, content := [] } =
        .error (.transfer (u ++ "Server Error".data ++ v ++ "boom".data))) :=
  ⟨by
    have h := (C5_upload_file "report.csv".data
      { status_code := 200, reason := "OK".data, text := [],
        content := [] }).1 rfl
    simpa using h,
   (C5_upload_file "report.csv".data
      { status_code := 500, reason := "Server Error".data,
        text := "boom".data, content := [] }).2.1 (by decide)⟩

/-- Modelled from the spec: `ENVD_PORT` (e2b/constants.py is not under
src/); the spec fixes only that there is one fixed default port. -/
def ENVD_PORT : Nat := 49982

/-- Modelled from the spec: `FILE_ROUTE` (e2b/constants.py is not under
src/); the spec fixes only that there is one fixed upload/download route
path. -/
def FILE_ROUTE : List Char := "/file".data

/-- Python `a or b` for an optional integer `a`: `None` and `0` are falsy,
so `a or b` yields `b` for both. -/
def pyOrNat : Option Nat → Nat → Nat
  | none, d => d
  | some p, d => if p = 0 then d else p

/-- Modelled from the spec: `SandboxConnection.get_protocol`
(e2b/sandbox/sandbox_connection.py is not under src/): the protocol is
secure (https) iff the flag is set. -/
def get_protocol (secure : Bool) : List Char :=
  if secure then "https".data else "http".data

/-- Modelled from the spec: `SandboxConnection.get_hostname`
(e2b/sandbox/sandbox_connection.py is not under src/): a pure function of
the session-identity fields, the debug host override and the requested
port. -/
def get_hostname (s : Sandbox) (port : Nat) : List Char :=
  match s.debug_hostname with
  | some h => h ++ ":".data ++ (Nat.repr port).data
  | none =>
      (Nat.repr port).data ++ "-".data ++ s.sandbox_id ++ "-".data ++
        s.client_id ++ ".".data ++ s.domain

/-- `Sandbox.file_url` (main.py:237-249):
`hostname = self.get_hostname(self._debug_port or ENVD_PORT)`,
`protocol = self.get_protocol(secure=self._debug_dev_env != "local")`,
`f"{protocol}://{hostname}{FILE_ROUTE}"`. -/
def file_url (s : Sandbox) : List Char :=
  get_protocol (decide (s.debug_dev_env ≠ some "local".data)) ++ "://".data ++
    get_hostname s (pyOrNat s.debug_port ENVD_PORT) ++ FILE_ROUTE

/-- C6 counterexample: a facade with the debug port override set to `0`
produces the same URL as one with no override at all — the port in the URL
is the default port, not the override `0` — because Python `or` treats `0`
as falsy.  The claim says the URL's port is the override whenever it is
set. -/
theorem C6_counterexample :
    file_url
        { template := "base".data, cwd := none, env_vars := [],
          sandbox_id := "s".data, client_id := "c".data,
          domain := "e2b.dev".data, debug_hostname := none,
          debug_port := some 0, debug_dev_env := none,
          on_scan_ports := false, on_stdout := false, on_stderr := false } =
      file_url
        { template := "base".data, cwd := none, env_vars := [],
          sandbox_id := "s".data, client_id := "c".data,
          domain := "e2b.dev".data, debug_hostname := none,
          debug_port := none, debug_dev_env := none,
          on_scan_ports := false, on_stdout := false, on_stderr := false } ∧
    pyOrNat (some 0) ENVD_PORT = ENVD_PORT ∧ ENVD_PORT ≠ 0 := by
  exact ⟨rfl, rfl, by decide⟩

/-- C6 (amended): `file_url` is pure and deterministic in the facade's
fields — any two states agreeing on the session-identity and debug fields
produce the identical URL string, with no other field (cwd, env, callbacks,
template) influencing it — and the URL is built from the protocol chosen to
be secure unless the debug environment is exactly `"local"`, the hostname
derived from the debug port override when it is set and non-zero (a zero or
missing override falls back to the fixed default port, Python truthiness),
and the fixed file route as path suffix. -/
theorem C6_file_url (s s' : Sandbox)
    (h₁ : s'.sandbox_id = s.sandbox_id) (h₂ : s'.client_id = s.client_id)
    (h₃ : s'.domain = s.domain) (h₄ : s'.debug_hostname = s.debug_hostname)
    (h₅ : s'.debug_port = s.debug_port)
    (h₆ : s'.debug_dev_env = s.debug_dev_env) :
    file_url s' = file_url s ∧
    file_url s =
      get_protocol (decide (s.debug_dev_env ≠ some "local".data)) ++
        "://".data ++
        get_hostname s
          (match s.debug_port with
            | some p => if p = 0 then ENVD_PORT else p
            | none => ENVD_PORT) ++
        FILE_ROUTE := by
  constructor
  · simp only [file_url, get_hostname, h₁, h₂, h₃, h₄, h₅, h₆]
  · cases hdp : s.debug_port <;> simp [file_url, pyOrNat, hdp]

/-- C6 witness: the amended theorem applied to two concrete states that
agree on the URL-relevant fields but differ in cwd and callbacks. -/
theorem C6_file_url_witness :
    file_url
        { template := "base".data, cwd := some "/code".data, env_vars := [],
          sandbox_id := "s".data, client_id := "c".data,
          domain := "e2b.dev".data, debug_hostname := none,
          debug_port := some 7000, debug_dev_env := some "local".data,
          on_scan_ports := true, on_stdout := true, on_stderr := true } =
      file_url
        { template := "other".data, cwd := none, env_vars := [],
          sandbox_id := "s".data, client_id := "c".data,
          domain := "e2b.dev".data, debug_hostname := none,
          debug_port := some 7000, debug_dev_env := some "local".data,
          on_scan_ports := false, on_stdout := false, on_stderr := false } :=
  (C6_file_url
    { template := "other".data, cwd := none, env_vars := [],
      sandbox_id := "s".data, client_id := "c".data,
      domain := "e2b.dev".data, debug_hostname := none,
      debug_port := some 7000, debug_dev_env := some "local".data,
      on_scan_ports := false, on_stdout := false, on_stderr := false }
    { template := "base".data, cwd := some "/code".data, env_vars := [],
      sandbox_id := "s".data, client_id := "c".data,
      domain := "e2b.dev".data, debug_hostname := none,
      debug_port := some 7000, debug_dev_env := some "local".data,
      on_scan_ports := true, on_stdout := true, on_stderr := true }
    rfl rfl rfl rfl rfl rfl).1

/-- A Python `dict` over string keys as an insertion-ordered association
list with unique keys.  `d[k] = v` updates the value in place if the key
exists and appends otherwise. -/
def dictUpsert : List (List Char × List Char) → List Char × List Char →
    List (List Char × List Char)
  | [], e => [e]
  | p :: ps, e => if p.1 = e.1 then (p.1, e.2) :: ps else p :: dictUpsert ps e

/-- Python `{**base, **upd}`: a copy of `base` updated with the entries of
`upd` in order. -/
def dictMerge (base upd : List (List Char × List Char)) :
    List (List Char × List Char) :=
  upd.foldl dictUpsert base

/-- Python `d.get(k)`. -/
def dictGet : List (List Char × List Char) → List Char → Option (List Char)
  | [], _ => none
  | p :: ps, k => if p.1 = k then some p.2 else dictGet ps k

/-- First-defined choice on optional values. -/
def optOr : Option (List Char) → Option (List Char) → Option (List Char)
  | some v, _ => some v
  | none, b => b

/-- main.py:116: `default_env_vars = {"PYTHONUNBUFFERED": "1"}`. -/
def default_env_vars : List (List Char × List Char) :=
  [("PYTHONUNBUFFERED".data, "1".data)]

/-- main.py:130-133: `env_vars={**default_env_vars, **(env_vars or {})}` —
`None` (and the falsy empty dict) degrade to the empty dict. -/
def merged_env_vars (env_vars : Option (List (List Char × List Char))) :
    List (List Char × List Char) :=
  dictMerge default_env_vars (env_vars.getD [])

theorem dictGet_upsert (d : List (List Char × List Char))
    (k v k' : List Char) :
    dictGet (dictUpsert d (k, v)) k' =
      if k' = k then some v else dictGet d k' := by
  induction d with
  | nil =>
      by_cases h : k' = k
      · subst h; simp [dictUpsert, dictGet]
      · have h2 : ¬k = k' := fun hh => h hh.symm
        simp [dictUpsert, dictGet, h, h2]
  | cons p ps ih =>
      by_cases hp : p.1 = k
      · by_cases h : k' = k
        · subst h
          simp [dictUpsert, dictGet, hp]
        · have hp' : ¬p.1 = k' := fun hh => h (hh.symm.trans hp)
          have hk2 : ¬k = k' := fun hh => h hh.symm
          simp [dictUpsert, dictGet, hp, h, hp', hk2]
      · by_cases h : k' = k
        · subst h
          simp [dictUpsert, dictGet, hp, ih]
        · simp [dictUpsert, dictGet, hp, h, ih]

theorem dictGet_none_of_keys (d : List (List Char × List Char))
    (k : List Char) (h : ∀ p ∈ d, p.1 ≠ k) : dictGet d k = none := by
  induction d with
  | nil => rfl
  | cons p ps ih =>
      simp only [dictGet, if_neg (h p (by simp))]
      exact ih fun q hq => h q (by simp [hq])

theorem dictGet_merge (base upd : List (List Char × List Char))
    (h : upd.Pairwise fun a b => a.1 ≠ b.1) (k : List Char) :
    dictGet (dictMerge base upd) k =
      optOr (dictGet upd k) (dictGet base k) := by
  induction upd generalizing base with
  | nil => simp [dictMerge, dictGet, optOr]
  | cons e rest ih =>
      obtain ⟨he, hrest⟩ := List.pairwise_cons.mp h
      obtain ⟨ek, ev⟩ := e
      rw [show dictMerge base ((ek, ev) :: rest) =
            dictMerge (dictUpsert base (ek, ev)) rest from rfl,
          ih (dictUpsert base (ek, ev)) hrest]
      have hup := dictGet_upsert base ek ev k
      by_cases hk : k = ek
      · subst hk
        have hnone : dictGet rest k = none :=
          dictGet_none_of_keys rest k fun q hq hq1 => he q hq hq1.symm
        simp [hnone, hup, dictGet, optOr]
      · have hk' : ¬ek = k := fun hh => hk hh.symm
        simp [hup, hk, hk', dictGet]

/-- C7: the environment handed to the connection is the baseline
`{PYTHONUNBUFFERED: "1"}` merged with the caller mapping, caller values
winning key-for-key; it always contains a `PYTHONUNBUFFERED` entry; and
merging `{FOO: "bar", PYTHONUNBUFFERED: "0"}` yields exactly
`{PYTHONUNBUFFERED: "0", FOO: "bar"}`. -/
theorem C7_env_merge (env_vars : List (List Char × List Char))
    (h : env_vars.Pairwise fun a b => a.1 ≠ b.1) :
    (∀ k, dictGet (merged_env_vars (some env_vars)) k =
      optOr (dictGet env_vars k) (dictGet default_env_vars k)) ∧
    (∃ v, dictGet (merged_env_vars (some env_vars))
      "PYTHONUNBUFFERED".data = some v) ∧
    merged_env_vars (some [("FOO".data, "bar".data),
        ("PYTHONUNBUFFERED".data, "0".data)]) =
      [("PYTHONUNBUFFERED".data, "0".data), ("FOO".data, "bar".data)] := by
  have hmain : ∀ k, dictGet (merged_env_vars (some env_vars)) k =
      optOr (dictGet env_vars k) (dictGet default_env_vars k) := fun k => by
    simpa [merged_env_vars] using
      dictGet_merge default_env_vars env_vars h k
  refine ⟨hmain, ?_, by decide⟩
  have h1 := hmain "PYTHONUNBUFFERED".data
  cases hc : dictGet env_vars "PYTHONUNBUFFERED".data with
  | none =>
      exact ⟨"1".data, by
        rw [h1, hc]; simp [optOr, default_env_vars, dictGet]⟩
  | some v => exact ⟨v, by rw [h1, hc]; simp [optOr]⟩

/-- C7 witness: the theorem applied to the caller mapping
`{FOO: "bar", PYTHONUNBUFFERED: "0"}` from the claim. -/
theorem C7_env_merge_witness :
    merged_env_vars (some [("FOO".data, "bar".data),
        ("PYTHONUNBUFFERED".data, "0".data)]) =
      [("PYTHONUNBUFFERED".data, "0".data), ("FOO".data, "bar".data)] :=
  (C7_env_merge [("FOO".data, "bar".data),
    ("PYTHONUNBUFFERED".data, "0".data)] (by decide)).2.2

/-- Python `a or b` where `a` is an optional string: `None` and `""` are
falsy, so `a or b` yields `b` for both. -/
def pyOrStr : Option (List Char) → List Char → List Char
  | none, d => d
  | some s, d => if s = [] then d else s

/-- main.py:97-100: `template = id or template or "base"`, with the
deprecation warning logged under `if id:`.  Returns the resolved template
and whether the warning was emitted.  A caller that does not pass `template`
gets the Python default, `some "base"`. -/
def resolve_template (id : Option (List Char))
    (template : Option (List Char)) : List Char × Bool :=
  (pyOrStr id (pyOrStr template "base".data),
    match id with
    | some s => decide (s ≠ [])
    | none => false)

/-- C8 counterexample: the legacy `id` parameter explicitly given as the
empty string does NOT win over `template` (Python truthiness makes `"" or t`
yield `t`), and no deprecation warning is emitted either; the claim says a
given `id` wins and warns. -/
theorem C8_counterexample :
    resolve_template (some "".data) (some "T".data) = ("T".data, false) ∧
      "T".data ≠ "".data := by
  exact ⟨rfl, by decide⟩

/-- C8 (amended): a non-empty legacy `id` wins over `template` and emits the
deprecation warning (without failing); a `None` or empty `id` is ignored —
no warning, and the template resolves to `template` unless that is itself
`None` or empty, in which case it falls back to `"base"`; in particular with
neither parameter given the resolved template is `"base"`. -/
theorem C8_resolve_template (id template : Option (List Char)) :
    (∀ s, id = some s → s ≠ [] → resolve_template id template = (s, true)) ∧
    ((id = none ∨ id = some []) →
      resolve_template id template = (pyOrStr template "base".data, false)) ∧
    resolve_template none (some "base".data) = ("base".data, false) := by
  refine ⟨?_, ?_, rfl⟩
  · rintro s rfl hs
    simp [resolve_template, pyOrStr, hs]
  · rintro (rfl | rfl) <;> simp [resolve_template, pyOrStr]

/-- C8 witness: the amended theorem applied to a concrete non-empty legacy
id. -/
theorem C8_resolve_template_witness :
    resolve_template (some "tpl".data) (some "other".data) =
      ("tpl".data, true) :=
  (C8_resolve_template (some "tpl".data) (some "other".data)).1
    "tpl".data rfl (by decide)

/-- Outcome of running a Python block: a normal value or a raised exception
(exceptions identified by a numeric code). -/
inductive Outcome (α : Type) where
  | ok (a : α)
  | raised (e : Nat)
  deriving DecidableEq

/-- `Sandbox.__enter__` (main.py:287-288): returns `self`. -/
def sandbox_enter (s : Sandbox) : Sandbox := s

/-- `Sandbox.__exit__` (main.py:290-291): calls `self.close()` — whatever
the exception argument — and implicitly returns `None` (falsy), so an
in-scope exception is never suppressed. -/
def sandbox_exit (_exc : Option Nat) : List Effect := [.close]

/-- The Python `with` statement over the facade: `__enter__` yields the
bound variable, the body runs, and `__exit__` runs on every exit path; the
exception is re-raised because `__exit__` returns a falsy value.  Returns
the overall outcome together with the trace of exit effects. -/
def withSandbox {α : Type} (s : Sandbox) (body : Sandbox → Outcome α) :
    Outcome α × List Effect :=
  match body (sandbox_enter s) with
  | .ok a => (.ok a, sandbox_exit none)
  | .raised e => (.raised e, sandbox_exit (some e))

/-- C9: entering the scope returns the facade handle itself, and leaving it
— normally or through a propagating exception — produces a trace containing
`close` exactly once, with the exception still propagating. -/
theorem C9_scoped_resource (α : Type) (s : Sandbox)
    (body : Sandbox → Outcome α) :
    sandbox_enter s = s ∧
    (∀ a, body s = .ok a → withSandbox s body = (.ok a, [Effect.close])) ∧
    (∀ e, body s = .raised e →
      withSandbox s body = (.raised e, [Effect.close])) ∧
    (withSandbox s body).2 = [Effect.close] := by
  refine ⟨rfl, ?_, ?_, ?_⟩
  · intro a ha
    simp [withSandbox, sandbox_enter, ha, sandbox_exit]
  · intro e he
    simp [withSandbox, sandbox_enter, he, sandbox_exit]
  · cases hb : body s <;>
      simp [withSandbox, sandbox_enter, hb, sandbox_exit]

/-- C9 witness: the theorem applied to a concrete facade state and a body
that raises; the exception propagates and `close` was called exactly once. -/
theorem C9_scoped_resource_witness :
    withSandbox (α := Nat)
        { template := "base".data, cwd := none, env_vars := [],
          sandbox_id := "s".data, client_id := "c".data,
          domain := "e2b.dev".data, debug_hostname := none,
          debug_port := none, debug_dev_env := none,
          on_scan_ports := false, on_stdout := false, on_stderr := false }
        (fun _ => .raised 7) =
      (.raised 7, [Effect.close]) :=
  (C9_scoped_resource Nat
    { template := "base".data, cwd := none, env_vars := [],
      sandbox_id := "s".data, client_id := "c".data,
      domain := "e2b.dev".data, debug_hostname := none,
      debug_port := none, debug_dev_env := none,
      on_scan_ports := false, on_stdout := false, on_stderr := false }
    (fun _ => .raised 7)).2.2.1 7 rfl

/-- C10: for successful uploads the returned remote path depends only on the
base name of the uploaded file's name — two 200 responses with different
reason phrases, bodies and payloads yield the identical path. -/
theorem C10_upload_path_independent (n₁ n₂ : List Char) (r₁ r₂ : Response)
    (hn : basename n₁ = basename n₂)
    (h₁ : r₁.status_code = 200) (h₂ : r₂.status_code = 200) :
    upload_file n₁ r₁ = upload_file n₂ r₂ := by
  simp [upload_file, h₁, h₂, hn]

/-- C10 witness: two uploads of files with base name `"f.txt"` under
different directories and different 200 responses return the same path. -/
theorem C10_upload_path_independent_witness :
    upload_file "a/f.txt".data
        { status_code := 200, reason := "OK".data, text := "x".data,
          content := [1] } =
      upload_file "b/f.txt".data
        { status_code := 200, reason := "Created".data, text := "y".data,
          content := [2] } :=
  C10_upload_path_independent "a/f.txt".data "b/f.txt".data
    { status_code := 200, reason := "OK".data, text := "x".data,
      content := [1] }
    { status_code := 200, reason := "Created".data, text := "y".data,
      content := [2] }
    (by decide) rfl rfl

end E2B
